import Mathlib

/-!
Verification of the ATS-BT serial command/response engine and the
A2DP/AVRCP discovery/pairing workflow.

Shallow embedding of the Python sources
`src/Python/ATS-BT/ats_bt_control.py` (class `ATSBT`) and
`src/Python/ATS-BT/ats_bt_a2dp_connect.py` (class `A2DPConnection`).

Modelling conventions:
* A line of serial input is a `String`; the asynchronous transport is a
  `List String` of the raw lines that arrive (in arrival order) before the
  polling deadline.  Timeouts are modelled by the end of that list: a line
  that would arrive after the timeout simply is not in the list.
* Python's `str.strip` is `pyStrip` (ASCII whitespace), `str.split()` is
  `pyWords`, `pat in s` is `containsSub s pat`, and `str.replace` for the
  one fixed pattern used by the code is `stripPendAll`.
* The regular expressions used by the code are fixed patterns whose
  character classes are pairwise disjoint at every decision point, so
  `re.search` is embedded as a deterministic leftmost matcher
  (`searchInquiry`, `extractLinkId`).
-/

/-! ### Python string primitives -/

/-- ASCII whitespace, the character set of the regex class `\s` and (on the
ASCII inputs of this protocol) of Python `str.strip` / `str.split`. -/
def isWS (c : Char) : Bool :=
  decide (c.toNat = 32 ∨ c.toNat = 9 ∨ c.toNat = 10 ∨ c.toNat = 13 ∨
    c.toNat = 11 ∨ c.toNat = 12)

/-- The regex class `\d`, i.e. `[0-9]`. -/
def isDigitC (c : Char) : Bool :=
  decide (48 ≤ c.toNat ∧ c.toNat ≤ 57)

/-- The character set `0123456789ABCDEFabcdef` used by the fallback scan
parse, which is also the regex class `[0-9A-Fa-f]`. -/
def isHexC (c : Char) : Bool :=
  isDigitC c || decide (65 ≤ c.toNat ∧ c.toNat ≤ 70) ||
    decide (97 ≤ c.toNat ∧ c.toNat ≤ 102)

/-- Python `str.strip()`: remove leading and trailing whitespace. -/
def pyStrip (s : String) : String :=
  String.mk (((s.toList.dropWhile isWS).reverse.dropWhile isWS).reverse)

/-- Substring test on character lists (`pat in s` in Python). -/
def listInfix (pat : List Char) : List Char → Bool
  | [] => pat.isEmpty
  | c :: t => pat.isPrefixOf (c :: t) || listInfix pat t

/-- Python's `pat in s` substring containment on strings. -/
def containsSub (s pat : String) : Bool :=
  listInfix pat.toList s.toList

/-- Python `str.split()`: split on whitespace runs, discarding empty
pieces.  The accumulator holds the current word reversed. -/
def pyWordsAux : List Char → List Char → List (List Char)
  | [], acc => if acc.isEmpty then [] else [acc.reverse]
  | c :: t, acc =>
    if isWS c then
      if acc.isEmpty then pyWordsAux t [] else acc.reverse :: pyWordsAux t []
    else pyWordsAux t (c :: acc)

def pyWords (l : List Char) : List (List Char) := pyWordsAux l []

/-- Decimal value of a digit string, the effect of Python `int` on a
string of digits (`digitsVal` folds left exactly as positional notation). -/
def digitsVal (l : List Char) : Nat :=
  l.foldl (fun a c => a * 10 + (c.toNat - 48)) 0

/-! ### Command/Response engine: `ATSBT.send_command`
(`ats_bt_control.py`, lines 155-204).

The read loop strips each raw line, skips empty ones, appends the line,
and breaks as soon as the appended line contains one of the terminal
markers `OK`, `ERROR`, `PENDING`, `ACK`.  On timeout it simply stops; the
collected lines are joined with a newline either way. -/

/-- `any(term in line for term in ['OK', 'ERROR', 'PENDING', 'ACK'])`. -/
def isTerminalLine (s : String) : Bool :=
  containsSub s "OK" || containsSub s "ERROR" || containsSub s "PENDING" ||
    containsSub s "ACK"

/-- The `response_lines` list built by the read loop of `send_command`,
given the raw lines that arrive before the timeout. -/
def sendCollect : List String → List String
  | [] => []
  | a :: t =>
    let s := pyStrip a
    if s.isEmpty then sendCollect t
    else if isTerminalLine s then [s]
    else s :: sendCollect t

/-- `ATSBT.send_command`: the response text returned for one command,
given the raw lines that arrive before the timeout. -/
def send_command (arrived : List String) : String :=
  String.intercalate "\n" (sendCollect arrived)

/-! ### Pairing: `A2DPConnection.pair_device`
(`ats_bt_a2dp_connect.py`, lines 109-133). -/

/-- The session state tracked by `A2DPConnection`: the paired address and
the two profile link ids (`None` initially). -/
structure ConnState where
  paired_address : Option String
  a2dp_link_id : Option String
  avrcp_link_id : Option String
deriving DecidableEq

/-- Python truthiness of an `Optional[str]`: `None` and `""` are falsy. -/
def pyTruthy : Option String → Bool
  | none => false
  | some s => !s.isEmpty

/-- Python `x or d` for an `Optional[str] x`: `d` when `x` is falsy. -/
def pyOrDefault (x : Option String) (d : String) : String :=
  match x with
  | none => d
  | some s => if s.isEmpty then d else s

/-- `A2DPConnection.pair_device`, applied to the response text returned by
`send_command` for `PAIR <address>`: `OK`/`PAIR_OK` in the response sets
the paired address and returns `True`; otherwise `ERROR` returns `False`;
any remaining response optimistically sets the paired address and returns
`True`. -/
def pair_device (st : ConnState) (address : String) (response : String) :
    Bool × ConnState :=
  if containsSub response "OK" || containsSub response "PAIR_OK" then
    (true, ⟨some address, st.a2dp_link_id, st.avrcp_link_id⟩)
  else if containsSub response "ERROR" then
    (false, st)
  else
    (true, ⟨some address, st.a2dp_link_id, st.avrcp_link_id⟩)

/-! ### Scan-result parsing: `A2DPConnection.scan_for_devices`
(`ats_bt_a2dp_connect.py`, lines 38-107). -/

/-- A discovered device: address, display name, optional signal strength
(the dictionaries built at lines 88-92 and 100-104). -/
structure Device where
  address : String
  name : String
  rssi : Option Int
deriving DecidableEq

/-- The glued token `PENDINGINQUIRY` handled at lines 76-77, as an
explicit character list. -/
def pendingGlued : List Char :=
  ['P', 'E', 'N', 'D', 'I', 'N', 'G', 'I', 'N', 'Q', 'U', 'I', 'R', 'Y']

/-- The tail of `pendingGlued` after its first character. -/
def pendTail : List Char :=
  ['E', 'N', 'D', 'I', 'N', 'G', 'I', 'N', 'Q', 'U', 'I', 'R', 'Y']

/-- The marker token `INQUIRY` as an explicit character list. -/
def inquiryChars : List Char := ['I', 'N', 'Q', 'U', 'I', 'R', 'Y']

/-- Python `line.replace('PENDINGINQUIRY', 'INQUIRY')`: replace every
non-overlapping occurrence, scanning left to right.  Structural recursion
on a fuel argument (the list length always suffices, since every step
consumes at least one character). -/
def stripFuel : Nat → List Char → List Char
  | _, [] => []
  | 0, l => l
  | n + 1, c :: t =>
    if pendingGlued.isPrefixOf (c :: t) then
      inquiryChars ++ stripFuel n (t.drop 13)
    else c :: stripFuel n t

def stripPendAll (l : List Char) : List Char := stripFuel l.length l

/-- Line normalization (lines 76-77): recover lines where `PENDING` was
concatenated directly onto `INQUIRY`. -/
def normalizeLine (line : String) : String :=
  String.mk (stripPendAll line.toList)

/-! The structured parse (lines 83-92) uses
`re.search(r'INQUIRY\s+([0-9A-Fa-f]{12})\s+"([^"]+)"\s+([0-9A-Fa-f]+)\s+(-?\d+)', line)`.
Every adjacent pair of sub-patterns draws from disjoint character classes,
so greedy matching never backtracks across a boundary and `re.search` is
the deterministic leftmost matcher below. -/

/-- `\s+` followed by something that is not whitespace: at least one
whitespace character, then the maximal whitespace run is skipped. -/
def dropWsPlus : List Char → Option (List Char)
  | [] => none
  | c :: t => if isWS c then some (t.dropWhile isWS) else none

/-- `([0-9A-Fa-f]{12})`: exactly twelve hex digits. -/
def takeHex12 (l : List Char) : Option (List Char × List Char) :=
  let a := l.take 12
  if a.length = 12 ∧ a.all isHexC then some (a, l.drop 12) else none

/-- `"([^"]+)"`: an opening quote, at least one non-quote character up to
the next quote, and that closing quote. -/
def takeQuoted (l : List Char) : Option (List Char × List Char) :=
  match l with
  | [] => none
  | c :: t =>
    if c = '"' then
      let nm := t.takeWhile (fun x => !(x = '"' : Bool))
      match t.dropWhile (fun x => !(x = '"' : Bool)) with
      | [] => none
      | _ :: r => if nm.isEmpty then none else some (nm, r)
    else none

/-- `([0-9A-Fa-f]+)` followed by something that is not a hex digit: at
least one hex digit, then the maximal hex run is skipped (the capture,
group 3, is never read by the code). -/
def dropHexPlus : List Char → Option (List Char)
  | [] => none
  | c :: t => if isHexC c then some (t.dropWhile isHexC) else none

/-- `(-?\d+)` at the end of the pattern: an optional minus sign and the
maximal following digit run, as an integer (group 4, `int(match.group(4))`). -/
def takeInt (l : List Char) : Option Int :=
  match l with
  | [] => none
  | c :: t =>
    if c = '-' then
      match t with
      | [] => none
      | d :: _ =>
        if isDigitC d then some (-(digitsVal (t.takeWhile isDigitC) : Int))
        else none
    else if isDigitC c then some ((digitsVal ((c :: t).takeWhile isDigitC) : Int))
    else none

/-- The structured pattern, anchored at the start of `l`: succeeds exactly
when the regex matches at this position, returning groups 1, 2 and 4. -/
def matchInquiryAt (l : List Char) : Option (String × String × Int) :=
  if inquiryChars.isPrefixOf l then
    (dropWsPlus (l.drop 7)).bind (fun l1 =>
      (takeHex12 l1).bind (fun p =>
        (dropWsPlus p.2).bind (fun l3 =>
          (takeQuoted l3).bind (fun q =>
            (dropWsPlus q.2).bind (fun l5 =>
              (dropHexPlus l5).bind (fun l6 =>
                (dropWsPlus l6).bind (fun l7 =>
                  (takeInt l7).map (fun rssi =>
                    (String.mk p.1, String.mk q.1, rssi)))))))))
  else none

/-- `re.search` for the structured pattern: the leftmost position at which
the pattern matches, if any. -/
def searchInquiry : List Char → Option (String × String × Int)
  | [] => none
  | c :: t =>
    match matchInquiryAt (c :: t) with
    | some r => some r
    | none => searchInquiry t

/-- The fallback token scan (lines 95-105): the first token equal to
`INQUIRY` that has a following token yields that following token; the
loop then breaks whether or not the token is a valid address. -/
def fallbackAddr : List (List Char) → Option (List Char)
  | [] => none
  | [_] => none
  | t :: u :: rest =>
    if t = inquiryChars then some u else fallbackAddr (u :: rest)

/-- `len(addr) == 12 and all(c in '0123456789ABCDEFabcdef' for c in addr)`. -/
def isHex12 (a : List Char) : Bool := a.length = 12 ∧ a.all isHexC

/-- The per-line parse applied to a normalized line (lines 80-105): the
candidacy test, then the structured parse, then the fallback parse. -/
def parseCandidate (l : String) : List Device :=
  if containsSub l "INQUIRY " ∧ ¬ containsSub l "INQU_OK" ∧
      ¬ containsSub l "INQUIRY_" then
    match searchInquiry l.toList with
    | some (addr, nm, rssi) => [⟨addr, nm, some rssi⟩]
    | none =>
      match fallbackAddr (pyWords l.toList) with
      | some a => if isHex12 a then [⟨String.mk a, "Unknown", none⟩] else []
      | none => []
  else []

/-- The devices one received line contributes (lines 74-105):
normalization followed by the candidate parse. -/
def parseScanLine (line : String) : List Device :=
  parseCandidate (normalizeLine line)

/-- `A2DPConnection.scan_for_devices`, given the raw lines that arrive
during the collection window: each raw line is stripped and kept only if
non-empty (lines 61-64), and every kept line is parsed (lines 74-105). -/
def scan_for_devices (raw : List String) : List Device :=
  (((raw.map pyStrip).filter (fun s => !s.isEmpty)).map parseScanLine).flatten

/-! ### Profile opening: `A2DPConnection._open_profile`
(`ats_bt_a2dp_connect.py`, lines 135-189) and its wrappers `open_a2dp` /
`open_avrcp` (lines 191-241). -/

/-- The collection loop of `_open_profile` (lines 155-165): strip, skip
empty, append, and break on a line containing `OPEN_OK` or `ERROR`. -/
def openCollect : List String → List String
  | [] => []
  | a :: t =>
    let s := pyStrip a
    if s.isEmpty then openCollect t
    else if containsSub s "OPEN_OK" || containsSub s "ERROR" then [s]
    else s :: openCollect t

/-- The joined response examined at lines 167-176. -/
def openResponse (main : List String) : String :=
  String.intercalate "\n" (openCollect main)

/-- `re.search(r'OPEN_OK[^\d]*(\d+)', s)`: the leftmost occurrence of
`OPEN_OK` that is followed (after a run of non-digits) by a digit run;
`[^\d]*` and `\d+` are disjoint classes, so the capture is the first
digit run after that occurrence. -/
def firstDigitRun : List Char → Option (List Char)
  | [] => none
  | c :: t =>
    if isDigitC c then some (c :: t.takeWhile isDigitC) else firstDigitRun t

def extractLinkId : List Char → Option String
  | [] => none
  | c :: t =>
    if "OPEN_OK".toList.isPrefixOf (c :: t) then
      match firstDigitRun (t.drop 6) with
      | some d => some (String.mk d)
      | none => extractLinkId t
    else extractLinkId t

/-- The grace-window drain (lines 179-185): among the lines still
buffered after the extra 2-second wait, the first one containing
`OPEN_OK` (other drained lines are discarded). -/
def drainOpen (late : List String) : Option String :=
  (late.map pyStrip).find? (fun s => containsSub s "OPEN_OK")

/-- `A2DPConnection._open_profile`, given the stripped-response lines of
the main window (`main`, raw), the lines still buffered at drain time
(`late`, raw), and the profile's default link id.  Timing (the `timeout`
and the fixed 2-second grace sleep) is modelled by which lines appear in
`main` and `late`. -/
def open_profile (main late : List String) (default_link_id : String) :
    Bool × Option String :=
  let response := openResponse main
  if containsSub response "OPEN_OK" then
    (true, some ((extractLinkId response.toList).getD default_link_id))
  else if containsSub response "ERROR" then
    (false, none)
  else if containsSub response "PENDING" then
    match drainOpen late with
    | some line => (true, some ((extractLinkId line.toList).getD default_link_id))
    | none => (true, some default_link_id)
  else
    (false, none)

/-- `A2DPConnection.open_a2dp`: `_open_profile(addr, "A2DP", "10")`. -/
def open_a2dp (main late : List String) : Bool × Option String :=
  open_profile main late "10"

/-- `A2DPConnection.open_avrcp`: `_open_profile(addr, "AVRCP", "11")`. -/
def open_avrcp (main late : List String) : Bool × Option String :=
  open_profile main late "11"

/-! ### Media control and teardown
(`ats_bt_a2dp_connect.py`, lines 261-283). -/

/-- `A2DPConnection.set_volume`: clamp the level to `[0, 127]` and build
the transmitted command `VOLUME <link> <level>`, where the link id is the
tracked AVRCP link id or the default `"11"`. -/
def set_volume (avrcp_link_id : Option String) (level : Int) : String :=
  let lvl := max 0 (min 127 level)
  "VOLUME " ++ pyOrDefault avrcp_link_id "11" ++ " " ++ toString lvl

/-- `A2DPConnection.disconnect`: for each tracked (truthy) link id, send
`CLOSE <id>` and clear the id; the response returned by `send_command` is
discarded by the code, which the model makes explicit by recording the
`(command, response)` transcript produced by an arbitrary device-behavior
function `respond` while never inspecting it. -/
def disconnect (respond : String → String) (st : ConnState) :
    ConnState × List (String × String) :=
  let closeA :=
    if pyTruthy st.a2dp_link_id then
      [("CLOSE " ++ st.a2dp_link_id.getD "",
        respond ("CLOSE " ++ st.a2dp_link_id.getD ""))]
    else []
  let a2dp := if pyTruthy st.a2dp_link_id then none else st.a2dp_link_id
  let closeV :=
    if pyTruthy st.avrcp_link_id then
      [("CLOSE " ++ st.avrcp_link_id.getD "",
        respond ("CLOSE " ++ st.avrcp_link_id.getD ""))]
    else []
  let avrcp := if pyTruthy st.avrcp_link_id then none else st.avrcp_link_id
  (⟨st.paired_address, a2dp, avrcp⟩, closeA ++ closeV)

/-! ### Spec-side definitions (for refinement comparison only)

The structured scan-result grammar, following the spec's words:
`<marker> <12-hex-digit address> "<free-text name>" <hex code>
<signed integer> <unit>`.  These definitions are written from the spec,
not from the code, and are compared against the code's parser. -/

/-- Builds a line of the spec's structured grammar from its components
(`rs` is the signed-integer token). -/
def structLine (addr nm cod rs unit : List Char) : List Char :=
  inquiryChars ++
    (' ' :: (addr ++ (' ' :: '"' ::
      (nm ++ ('"' :: ' ' ::
        (cod ++ (' ' :: (rs ++ (' ' :: unit)))))))))

/-- A signed-integer token: an optional minus sign and a non-empty digit
run. -/
def signedIntTok (l : List Char) : Bool :=
  match l with
  | [] => false
  | c :: t =>
    if c = '-' then !t.isEmpty && t.all isDigitC
    else (c :: t).all isDigitC

/-- Well-formedness of grammar components: a 12-hex-digit address, a
non-empty quote-free name, a non-empty hex code, a signed integer, and a
non-empty whitespace-free unit token. -/
def grammarOK (addr nm cod rs unit : List Char) : Bool :=
  isHex12 addr && !nm.isEmpty && nm.all (fun c => !(c = '"' : Bool)) &&
    !cod.isEmpty && cod.all isHexC && signedIntTok rs &&
    !unit.isEmpty && unit.all (fun c => !isWS c)

/-- The stripped non-empty lines among the raw arrivals, in order: the
lines the `send_command` read loop would consider. -/
def pyLines (arrived : List String) : List String :=
  (arrived.map pyStrip).filter (fun s => !s.isEmpty)

/-! ### Sanity examples (concrete evaluations of the embedding) -/

example :
    grammarOK "AABBCCDDEEFF".toList "INQU_OK".toList "00".toList
      "-1".toList "dBm".toList = true := by decide

example : open_a2dp ["OPEN 123456789ABC A2DP PENDING"] [] = (true, some "10") := by
  decide

example : open_profile ["OPEN_OK 42"] [] "10" = (true, some "42") := by decide

example : open_profile ["ERROR 5"] [] "10" = (false, none) := by decide

example : open_profile [] [] "10" = (false, none) := by decide

example : set_volume none 200 = "VOLUME 11 127" := by decide

example : set_volume (some "9") (-5) = "VOLUME 9 0" := by decide

example :
    disconnect (fun _ => "ERROR") ⟨some "A", some "10", some "11"⟩ =
      (⟨some "A", none, none⟩,
        [("CLOSE 10", "ERROR"), ("CLOSE 11", "ERROR")]) := by decide

example :
    parseScanLine "INQUIRY F84E1776FDB1 \"LinkBuds S\" 240404 -61 dBm" =
      [⟨"F84E1776FDB1", "LinkBuds S", some (-61)⟩] := by decide

example :
    parseScanLine "PENDINGINQUIRY F84E1776FDB1 \"X\" 000000 -50 dBm" =
      [⟨"F84E1776FDB1", "X", some (-50)⟩] := by decide

example : parseScanLine "INQUIRY AABBCCDDEEFF" =
    [⟨"AABBCCDDEEFF", "Unknown", none⟩] := by decide

example : parseScanLine "INQU_OK" = [] := by decide

example : parseScanLine "INQUIRY_COMPLETE" = [] := by decide

example : parseScanLine "PENDINGPENDINGINQUIRY AABBCCDDEEFF" = [] := by decide

example : parseScanLine "PENDINGINQUIRY AABBCCDDEEFF" =
    [⟨"AABBCCDDEEFF", "Unknown", none⟩] := by decide

example : send_command ["GARBAGE", "STATUS OK", "LATE"] = "GARBAGE\nSTATUS OK" := by decide

example : send_command [] = "" := by decide

example : pyWords "  INQUIRY   AABBCCDDEEFF ".toList =
    ["INQUIRY".toList, "AABBCCDDEEFF".toList] := by decide

example : pyStrip "  abc \r" = "abc" := by decide

example : digitsVal "61".toList = 61 := by decide

/-! ### Helper lemmas -/

theorem isPrefixOf_append_self (p r : List Char) : p.isPrefixOf (p ++ r) = true := by
  induction p with
  | nil => cases r <;> rfl
  | cons c t ih => simp [List.isPrefixOf, ih]

theorem listInfix_of_isPrefixOf (p l : List Char) (h : p.isPrefixOf l = true) :
    listInfix p l = true := by
  cases l with
  | nil =>
    cases p with
    | nil => rfl
    | cons c t => simp [List.isPrefixOf] at h
  | cons c t => simp [listInfix, h]

theorem toList_mk (l : List Char) : (String.mk l).toList = l := rfl

theorem isEmpty_false_of_ne_nil {l : List Char} (h : l ≠ []) : l.isEmpty = false := by
  cases l with
  | nil => exact absurd rfl h
  | cons c t => rfl

/-! ### Claim C2: pairing transition rules -/

/-- C2: `pair_device` applies its transition rules in order: a response
containing a success marker (`OK`, which also covers `PAIR_OK`) yields
Paired, recording the address; otherwise a response containing the error
marker yields Failed with the state unchanged; any other non-empty
response is treated as Paired optimistically, recording the address. -/
theorem pair_device_transition (st : ConnState) (address response : String) :
    ((containsSub response "OK" || containsSub response "PAIR_OK") = true →
      pair_device st address response =
        (true, ⟨some address, st.a2dp_link_id, st.avrcp_link_id⟩)) ∧
    ((containsSub response "OK" || containsSub response "PAIR_OK") = false →
      containsSub response "ERROR" = true →
      pair_device st address response = (false, st)) ∧
    ((containsSub response "OK" || containsSub response "PAIR_OK") = false →
      containsSub response "ERROR" = false → response ≠ "" →
      pair_device st address response =
        (true, ⟨some address, st.a2dp_link_id, st.avrcp_link_id⟩)) := by
  unfold pair_device
  refine ⟨?_, ?_, ?_⟩ <;> intros <;> simp_all

/-- Witness for C2: the three transition rules evaluated at the concrete
responses `PAIR_OK`, `ERROR` and `PENDING`. -/
theorem pair_device_transition_witness :
    ((containsSub "PAIR_OK" "OK" || containsSub "PAIR_OK" "PAIR_OK") = true ∧
      pair_device ⟨none, none, none⟩ "F84E1776FDB1" "PAIR_OK" =
        (true, ⟨some "F84E1776FDB1", none, none⟩)) ∧
    ((containsSub "ERROR" "OK" || containsSub "ERROR" "PAIR_OK") = false ∧
      containsSub "ERROR" "ERROR" = true ∧
      pair_device ⟨none, none, none⟩ "F84E1776FDB1" "ERROR" =
        (false, ⟨none, none, none⟩)) ∧
    ((containsSub "PENDING" "OK" || containsSub "PENDING" "PAIR_OK") = false ∧
      containsSub "PENDING" "ERROR" = false ∧ "PENDING" ≠ "" ∧
      pair_device ⟨none, none, none⟩ "F84E1776FDB1" "PENDING" =
        (true, ⟨some "F84E1776FDB1", none, none⟩)) :=
  ⟨⟨by decide,
    (pair_device_transition ⟨none, none, none⟩ "F84E1776FDB1" "PAIR_OK").1
      (by decide)⟩,
   ⟨by decide, by decide,
    (pair_device_transition ⟨none, none, none⟩ "F84E1776FDB1" "ERROR").2.1
      (by decide) (by decide)⟩,
   ⟨by decide, by decide, by decide,
    (pair_device_transition ⟨none, none, none⟩ "F84E1776FDB1" "PENDING").2.2
      (by decide) (by decide) (by decide)⟩⟩

/-! ### Claim C9: pairing on a completely empty response -/

/-- C9: when the pairing command times out with no lines collected,
`send_command` returns the empty string, and `pair_device` still returns
`True` and records the address as paired: the optimistic-success branch
also covers the empty response. -/
theorem pair_device_empty_response (st : ConnState) (address : String) :
    pair_device st address (send_command []) =
      (true, ⟨some address, st.a2dp_link_id, st.avrcp_link_id⟩) := by
  have h : send_command [] = "" := by decide
  rw [h]
  rfl

/-! ### Claim C3: profile open, pending with no late success -/

/-- C3: when the collected response of a profile-open call contains no
`OPEN_OK` and no `ERROR` but does contain `PENDING`, and no line drained
in the 2-second grace window contains `OPEN_OK`, the call succeeds with
the profile's default link id: `"10"` for A2DP and `"11"` for AVRCP. -/
theorem open_profile_pending_default (main late : List String)
    (hok : containsSub (openResponse main) "OPEN_OK" = false)
    (herr : containsSub (openResponse main) "ERROR" = false)
    (hpend : containsSub (openResponse main) "PENDING" = true)
    (hlate : drainOpen late = none) :
    open_a2dp main late = (true, some "10") ∧
      open_avrcp main late = (true, some "11") := by
  constructor <;> simp [open_a2dp, open_avrcp, open_profile, hok, herr, hpend, hlate]

/-- Witness for C3: a single `OPEN ... PENDING` line and an empty grace
drain yield `(true, "10")` for A2DP and `(true, "11")` for AVRCP. -/
theorem open_profile_pending_default_witness :
    (containsSub (openResponse ["OPEN 123456789ABC A2DP PENDING"]) "OPEN_OK" = false ∧
      containsSub (openResponse ["OPEN 123456789ABC A2DP PENDING"]) "ERROR" = false ∧
      containsSub (openResponse ["OPEN 123456789ABC A2DP PENDING"]) "PENDING" = true ∧
      drainOpen ([] : List String) = none) ∧
    open_a2dp ["OPEN 123456789ABC A2DP PENDING"] [] = (true, some "10") ∧
      open_avrcp ["OPEN 123456789ABC A2DP PENDING"] [] = (true, some "11") :=
  ⟨⟨by decide, by decide, by decide, by decide⟩,
    open_profile_pending_default ["OPEN 123456789ABC A2DP PENDING"] []
      (by decide) (by decide) (by decide) (by decide)⟩

/-! ### Claim C4: teardown closes every tracked link -/

/-- C4: during teardown, a `CLOSE` command is issued for every tracked
(truthy) link id — regardless of the device's response to either close,
which the code never inspects (`respond` is universally quantified) — and
each tracked link id is cleared.  Python exceptions cannot skip the second
close here: with an open transport, `send_command` has no raising path. -/
theorem disconnect_closes_each_link (respond : String → String) (st : ConnState) :
    (pyTruthy st.a2dp_link_id = true →
      ("CLOSE " ++ st.a2dp_link_id.getD "",
          respond ("CLOSE " ++ st.a2dp_link_id.getD "")) ∈ (disconnect respond st).2 ∧
        (disconnect respond st).1.a2dp_link_id = none) ∧
    (pyTruthy st.avrcp_link_id = true →
      ("CLOSE " ++ st.avrcp_link_id.getD "",
          respond ("CLOSE " ++ st.avrcp_link_id.getD "")) ∈ (disconnect respond st).2 ∧
        (disconnect respond st).1.avrcp_link_id = none) := by
  unfold disconnect
  constructor <;> intro h <;> simp [h]

/-- Witness for C4: both links tracked, the device answering `ERROR` to
every command; both `CLOSE` commands are still issued and both ids
cleared. -/
theorem disconnect_closes_each_link_witness :
    (pyTruthy (some "10") = true ∧ pyTruthy (some "11") = true) ∧
    (("CLOSE 10", "ERROR") ∈
        (disconnect (fun _ => "ERROR") ⟨some "A", some "10", some "11"⟩).2 ∧
      (disconnect (fun _ => "ERROR") ⟨some "A", some "10", some "11"⟩).1.a2dp_link_id = none) ∧
    (("CLOSE 11", "ERROR") ∈
        (disconnect (fun _ => "ERROR") ⟨some "A", some "10", some "11"⟩).2 ∧
      (disconnect (fun _ => "ERROR") ⟨some "A", some "10", some "11"⟩).1.avrcp_link_id = none) :=
  ⟨⟨by decide, by decide⟩,
    (disconnect_closes_each_link (fun _ => "ERROR") ⟨some "A", some "10", some "11"⟩).1
      (by decide),
    (disconnect_closes_each_link (fun _ => "ERROR") ⟨some "A", some "10", some "11"⟩).2
      (by decide)⟩

/-! ### Claim C8: volume clamping -/

/-- C8: `set_volume` transmits the level clamped to `[0, 127]`: level 200
is transmitted as 127, level -5 as 0, and any level already in range is
transmitted unchanged. -/
theorem set_volume_clamped (link : Option String) (level : Int) :
    set_volume link 200 = "VOLUME " ++ pyOrDefault link "11" ++ " " ++ "127" ∧
    set_volume link (-5) = "VOLUME " ++ pyOrDefault link "11" ++ " " ++ "0" ∧
    (0 ≤ level → level ≤ 127 →
      set_volume link level =
        "VOLUME " ++ pyOrDefault link "11" ++ " " ++ toString level) := by
  refine ⟨rfl, rfl, ?_⟩
  intro h1 h2
  unfold set_volume
  have h : max 0 (min 127 level) = level := by omega
  rw [h]

/-- Witness for C8: the in-range level 64 with no tracked AVRCP link is
transmitted unchanged as `VOLUME 11 64`. -/
theorem set_volume_clamped_witness :
    (0 : Int) ≤ 64 ∧ (64 : Int) ≤ 127 ∧
      set_volume none 64 = "VOLUME " ++ pyOrDefault none "11" ++ " " ++ toString (64 : Int) :=
  ⟨by decide, by decide, (set_volume_clamped none 64).2.2 (by decide) (by decide)⟩

/-! ### Claim C1: the response returned by send_command -/

/-- The read loop of `send_command` collects exactly the stripped
non-empty lines before the first terminal-marker line, plus that terminal
line itself when one exists (and all of them when none exists). -/
theorem sendCollect_spec (arrived : List String) :
    sendCollect arrived =
      (pyLines arrived).takeWhile (fun s => !isTerminalLine s) ++
        ((pyLines arrived).dropWhile (fun s => !isTerminalLine s)).take 1 := by
  induction arrived with
  | nil => rfl
  | cons a t ih =>
    simp only [sendCollect, pyLines, List.map_cons, List.filter_cons]
    by_cases he : (pyStrip a).isEmpty
    · simpa [he] using ih
    · by_cases ht : isTerminalLine (pyStrip a)
      · simp [he, ht, List.takeWhile_cons, List.dropWhile_cons]
      · simp only [he, ht, Bool.not_false, if_true, if_false, Bool.not_true,
          List.takeWhile_cons, List.dropWhile_cons]
        simpa [he, ht] using ih

/-- C1: `send_command` returns the newline-join of the stripped non-empty
arrived lines in arrival order up to and including the first line that
contains a terminal marker (`OK`, `ERROR`, `PENDING`, `ACK`), later lines
excluded; when no arrived line contains a terminal marker (the timeout
case), it returns the newline-join of all of them — possibly the empty
string — rather than any distinct timeout error. -/
theorem send_command_spec (arrived : List String) :
    send_command arrived =
      String.intercalate "\n"
        ((pyLines arrived).takeWhile (fun s => !isTerminalLine s) ++
          ((pyLines arrived).dropWhile (fun s => !isTerminalLine s)).take 1) := by
  unfold send_command
  rw [sendCollect_spec]

/-! ### Claim C10: only the final response line can carry a marker -/

/-- C10: in the line list collected by `send_command` (whose newline-join
is the returned response), every line except the last contains no
terminal marker: polling stops at the first marker-bearing line, so a
response never holds two marker-bearing lines. -/
theorem send_command_marker_only_last (arrived : List String) :
    (((sendCollect arrived).dropLast).all (fun s => !isTerminalLine s) = true) ∧
      send_command arrived = String.intercalate "\n" (sendCollect arrived) := by
  refine ⟨?_, rfl⟩
  induction arrived with
  | nil => rfl
  | cons a t ih =>
    simp only [sendCollect]
    by_cases he : (pyStrip a).isEmpty
    · simpa [he] using ih
    · by_cases ht : isTerminalLine (pyStrip a)
      · simp [he, ht]
      · cases h : sendCollect t with
        | nil => simp [he, ht, h]
        | cons b l =>
          rw [h] at ih
          have hd : (pyStrip a :: b :: l).dropLast = pyStrip a :: (b :: l).dropLast := rfl
          simp [he, ht, h, hd, ih]

/-! ### Normalization lemmas for the fuel-based replacement -/

theorem stripFuel_nil (n : Nat) : stripFuel n [] = [] := by cases n <;> rfl

/-- Any two sufficient fuels compute the same replacement. -/
theorem stripFuel_congr : ∀ (fuel n : Nat) (l : List Char),
    l.length ≤ fuel → l.length ≤ n → stripFuel fuel l = stripFuel n l := by
  intro fuel
  induction fuel with
  | zero =>
    intro n l h1 _
    have hl : l = [] := List.length_eq_zero.mp (Nat.le_zero.mp h1)
    subst hl
    rw [stripFuel_nil, stripFuel_nil]
  | succ f ih =>
    intro n l h1 h2
    cases l with
    | nil => rw [stripFuel_nil, stripFuel_nil]
    | cons c t =>
      cases n with
      | zero => simp at h2
      | succ m =>
        simp only [List.length_cons, Nat.succ_le_succ_iff] at h1 h2
        simp only [stripFuel]
        by_cases hp : pendingGlued.isPrefixOf (c :: t) = true
        · rw [if_pos hp, if_pos hp]
          have hd := List.length_drop 13 t
          rw [ih (m) (t.drop 13) (by omega) (by omega)]
        · rw [if_neg hp, if_neg hp, ih m t h1 h2]

/-- When the glued token occurs nowhere in the line, the replacement is
the identity. -/
theorem stripFuel_no_occur : ∀ (fuel : Nat) (l : List Char),
    listInfix pendingGlued l = false → stripFuel fuel l = l := by
  intro fuel
  induction fuel with
  | zero => intro l _; cases l <;> rfl
  | succ f ih =>
    intro l h
    cases l with
    | nil => rfl
    | cons c t =>
      simp only [listInfix, Bool.or_eq_false_iff] at h
      simp only [stripFuel]
      rw [if_neg (by simp [h.1]), ih t h.2]

theorem stripPendAll_no_occur (l : List Char)
    (h : listInfix pendingGlued l = false) : stripPendAll l = l :=
  stripFuel_no_occur _ _ h

/-- Replacing in `PENDINGINQUIRY ++ rest` rewrites the leading glued token
and continues on `rest`. -/
theorem stripPendAll_glued (rest : List Char) :
    stripPendAll (pendingGlued ++ rest) = inquiryChars ++ stripPendAll rest := by
  unfold stripPendAll
  rw [List.length_append, (by decide : pendingGlued.length = 14),
    Nat.add_comm 14 rest.length]
  have hsplit : pendingGlued ++ rest = 'P' :: (pendTail ++ rest) := rfl
  rw [hsplit]
  show (if pendingGlued.isPrefixOf ('P' :: (pendTail ++ rest)) then
      inquiryChars ++ stripFuel (rest.length + 13) ((pendTail ++ rest).drop 13)
    else 'P' :: stripFuel (rest.length + 13) (pendTail ++ rest)) =
    inquiryChars ++ stripFuel rest.length rest
  rw [← hsplit, if_pos (isPrefixOf_append_self pendingGlued rest),
    List.drop_left' (by decide : pendTail.length = 13)]
  exact congrArg _ (stripFuel_congr _ _ _ (by omega) le_rfl)

/-- Replacing in `INQUIRY ++ rest` leaves the head marker intact and
continues on `rest`. -/
theorem stripPendAll_inq (rest : List Char) :
    stripPendAll (inquiryChars ++ rest) = inquiryChars ++ stripPendAll rest := by
  unfold stripPendAll
  rw [List.length_append, (by decide : inquiryChars.length = 7),
    Nat.add_comm 7 rest.length]
  rfl

/-! ### Claim C6: PENDING-prefix recovery -/

/-- C6 counterexample: in the received line
`PENDINGPENDINGINQUIRY AABBCCDDEEFF`, the token `PENDING` is concatenated
directly before `INQUIRY` (and nowhere else); removing that `PENDING`
gives `PENDINGINQUIRY AABBCCDDEEFF`.  The parser yields no device for the
original line — its replacement pass rewrites the inner occurrence and
leaves `PENDINGINQUIRY AABBCCDDEEFF`, whose fallback tokens contain no
exact `INQUIRY` token — but yields one device for the prefix-removed
line, so the two parses differ and the claim fails as universally
stated. -/
theorem parseScanLine_pending_midline_cex :
    parseScanLine "PENDINGPENDINGINQUIRY AABBCCDDEEFF" = [] ∧
      parseScanLine "PENDINGINQUIRY AABBCCDDEEFF" =
        [⟨"AABBCCDDEEFF", "Unknown", none⟩] :=
  ⟨by decide, by decide⟩

/-- C6 (amended): for every received line that begins with `PENDING`
concatenated directly before `INQUIRY`, the scan parser produces exactly
the same devices as for the line with that leading `PENDING` removed. -/
theorem parseScanLine_pending_prefix_strip (rest : String) :
    parseScanLine ("PENDINGINQUIRY" ++ rest) = parseScanLine ("INQUIRY" ++ rest) := by
  unfold parseScanLine normalizeLine
  have h1 : ("PENDINGINQUIRY" ++ rest).toList = "PENDINGINQUIRY".toList ++ rest.toList := rfl
  have h2 : ("INQUIRY" ++ rest).toList = "INQUIRY".toList ++ rest.toList := rfl
  have h3 : "PENDINGINQUIRY".toList = pendingGlued := by decide
  have h4 : "INQUIRY".toList = inquiryChars := by decide
  rw [h1, h2, h3, h4, stripPendAll_glued, stripPendAll_inq]

/-! ### Claim C7: the fallback parse -/

/-- C7: on a candidate scan line (it contains `INQUIRY ` and neither
`INQU_OK` nor `INQUIRY_`) where the structured parse fails, the fallback
parse records a device whose address is the token following the first
`INQUIRY` token that has a successor, with name `Unknown` and no signal
strength, exactly when that token is twelve hex characters; otherwise —
wrong-shape token, or no such marker token at all — the line contributes
no device.  (The candidate line is the line as examined at that point of
the code, i.e. after the `PENDINGINQUIRY` normalization.) -/
theorem fallback_parse_characterization (l : String)
    (hc1 : containsSub l "INQUIRY " = true)
    (hc2 : containsSub l "INQU_OK" = false)
    (hc3 : containsSub l "INQUIRY_" = false)
    (hs : searchInquiry l.toList = none) :
    (∀ a, fallbackAddr (pyWords l.toList) = some a →
      parseCandidate l =
        if isHex12 a then [⟨String.mk a, "Unknown", none⟩] else []) ∧
    (fallbackAddr (pyWords l.toList) = none → parseCandidate l = []) := by
  unfold parseCandidate
  have hcond : (containsSub l "INQUIRY " : Prop) ∧ ¬ (containsSub l "INQU_OK" : Prop) ∧
      ¬ (containsSub l "INQUIRY_" : Prop) := by
    refine ⟨hc1, ?_, ?_⟩ <;> simp [hc2, hc3]
  rw [if_pos hcond, hs]
  constructor
  · intro a ha
    rw [ha]
  · intro h0
    rw [h0]

/-- Witness for C7: the spec's example line `INQUIRY AABBCCDDEEFF` — a
candidate line where the structured parse fails and the token after
`INQUIRY` is twelve hex characters — yields address `AABBCCDDEEFF`, name
`Unknown`, and no signal strength. -/
theorem fallback_parse_characterization_witness :
    (containsSub "INQUIRY AABBCCDDEEFF" "INQUIRY " = true ∧
      containsSub "INQUIRY AABBCCDDEEFF" "INQU_OK" = false ∧
      containsSub "INQUIRY AABBCCDDEEFF" "INQUIRY_" = false ∧
      searchInquiry "INQUIRY AABBCCDDEEFF".toList = none ∧
      fallbackAddr (pyWords "INQUIRY AABBCCDDEEFF".toList) =
        some "AABBCCDDEEFF".toList) ∧
    parseCandidate "INQUIRY AABBCCDDEEFF" = [⟨"AABBCCDDEEFF", "Unknown", none⟩] := by
  refine ⟨⟨by decide, by decide, by decide, by decide, by decide⟩, ?_⟩
  have h := (fallback_parse_characterization "INQUIRY AABBCCDDEEFF"
    (by decide) (by decide) (by decide) (by decide)).1 ("AABBCCDDEEFF".toList)
    (by decide)
  rw [h]
  decide

/-! ### Lemmas for the structured scan parse -/

theorem takeWhile_append_stop {p : Char → Bool} :
    ∀ (xs : List Char) (y : Char) (ys : List Char),
      (∀ x ∈ xs, p x = true) → p y = false →
      (xs ++ y :: ys).takeWhile p = xs ∧ (xs ++ y :: ys).dropWhile p = y :: ys := by
  intro xs
  induction xs with
  | nil =>
    intro y ys _ hy
    simp [List.takeWhile_cons, List.dropWhile_cons, hy]
  | cons c t ih =>
    intro y ys hx hy
    have hc : p c = true := hx c (by simp)
    have ht := ih y ys (fun x hx' => hx x (by simp [hx'])) hy
    simp [List.takeWhile_cons, List.dropWhile_cons, hc, ht.1, ht.2]

theorem not_ws_of_hex {c : Char} (h : isHexC c = true) : isWS c = false := by
  simp only [isHexC, isDigitC, Bool.or_eq_true, decide_eq_true_eq] at h
  simp only [isWS, decide_eq_false_iff_not]
  omega

theorem not_ws_of_digit {c : Char} (h : isDigitC c = true) : isWS c = false := by
  apply not_ws_of_hex
  simp [isHexC, h]

theorem ne_minus_of_digit {c : Char} (h : isDigitC c = true) : ¬ (c = '-') := by
  intro hc
  subst hc
  exact absurd h (by decide)

theorem dropWsPlus_space_cons (x : Char) (xs : List Char) (h : isWS x = false) :
    dropWsPlus (' ' :: x :: xs) = some (x :: xs) := by
  simp [dropWsPlus, (by decide : isWS ' ' = true), List.dropWhile_cons, h]

theorem takeHex12_exact (addr rest : List Char) (h12 : addr.length = 12)
    (hhex : addr.all isHexC = true) :
    takeHex12 (addr ++ rest) = some (addr, rest) := by
  simp only [takeHex12]
  rw [List.take_left' h12, List.drop_left' h12, if_pos ⟨h12, hhex⟩]

theorem takeQuoted_exact (nm rest : List Char) (hnm : nm ≠ [])
    (hq : nm.all (fun c => !(c = '"' : Bool)) = true) :
    takeQuoted ('"' :: (nm ++ ('"' :: rest))) = some (nm, rest) := by
  have hsp := @takeWhile_append_stop (fun c => !(c = '"' : Bool)) nm '"' rest
    (List.all_eq_true.mp hq) (by simp)
  simp only [takeQuoted, if_pos rfl]
  rw [hsp.1, hsp.2]
  simp [isEmpty_false_of_ne_nil hnm]

theorem dropHexPlus_exact (cod rest : List Char) (hcod : cod ≠ [])
    (hhex : cod.all isHexC = true) :
    dropHexPlus (cod ++ (' ' :: rest)) = some (' ' :: rest) := by
  cases cod with
  | nil => exact absurd rfl hcod
  | cons h hs =>
    simp only [List.all_cons, Bool.and_eq_true] at hhex
    rw [List.cons_append]
    simp only [dropHexPlus]
    rw [if_pos hhex.1]
    have hsp := @takeWhile_append_stop isHexC hs ' ' rest
      (List.all_eq_true.mp hhex.2) (by decide)
    rw [hsp.2]

theorem dropWsPlus_space_append (y : Char) (ys rest : List Char) (h : isWS y = false) :
    dropWsPlus (' ' :: ((y :: ys) ++ rest)) = some ((y :: ys) ++ rest) := by
  rw [List.cons_append]
  exact dropWsPlus_space_cons y (ys ++ rest) h

theorem takeInt_exact (ds rest : List Char) (neg : Bool) (hds : ds ≠ [])
    (hdig : ds.all isDigitC = true) :
    takeInt (((if neg then ['-'] else []) ++ ds) ++ (' ' :: rest)) =
      some (if neg then -(digitsVal ds : Int) else (digitsVal ds : Int)) := by
  cases ds with
  | nil => exact absurd rfl hds
  | cons d dtl =>
    have hdig' := hdig
    simp only [List.all_cons, Bool.and_eq_true] at hdig'
    have hsp := @takeWhile_append_stop isDigitC (d :: dtl) ' ' rest
      (List.all_eq_true.mp hdig) (by decide)
    cases neg with
    | false =>
      show takeInt (d :: (dtl ++ (' ' :: rest))) = some ((digitsVal (d :: dtl) : Int))
      simp only [takeInt]
      rw [if_neg (ne_minus_of_digit hdig'.1), if_pos hdig'.1]
      rw [← List.cons_append, hsp.1]
    | true =>
      show takeInt ('-' :: (d :: (dtl ++ (' ' :: rest)))) =
        some (-(digitsVal (d :: dtl) : Int))
      simp only [takeInt, if_true]
      rw [if_pos hdig'.1]
      rw [← List.cons_append, hsp.1]

theorem signed_tok_not_ws (neg : Bool) (ds unit : List Char) (hds : ds ≠ [])
    (hdig : ds.all isDigitC = true) :
    dropWsPlus (' ' :: (((if neg then ['-'] else []) ++ ds) ++ (' ' :: unit))) =
      some (((if neg then ['-'] else []) ++ ds) ++ (' ' :: unit)) := by
  cases ds with
  | nil => exact absurd rfl hds
  | cons d dtl =>
    have hdig' := hdig
    simp only [List.all_cons, Bool.and_eq_true] at hdig'
    cases neg with
    | false =>
      show dropWsPlus (' ' :: (d :: (dtl ++ (' ' :: unit)))) =
        some (d :: (dtl ++ (' ' :: unit)))
      exact dropWsPlus_space_cons d _ (not_ws_of_digit hdig'.1)
    | true =>
      show dropWsPlus (' ' :: ('-' :: (d :: (dtl ++ (' ' :: unit))))) =
        some ('-' :: (d :: (dtl ++ (' ' :: unit))))
      exact dropWsPlus_space_cons '-' _ (by decide)

/-- The structured matcher succeeds at the start of a grammar line and
extracts exactly the address, the name, and the signed-integer value. -/
theorem matchInquiryAt_structLine (addr nm cod rs unit : List Char) (v : Int)
    (haddr : addr.length = 12) (haddrhex : addr.all isHexC = true)
    (hnm : nm ≠ []) (hnmq : nm.all (fun c => !(c = '"' : Bool)) = true)
    (hcod : cod ≠ []) (hcodhex : cod.all isHexC = true)
    (hrs : dropWsPlus (' ' :: (rs ++ (' ' :: unit))) = some (rs ++ (' ' :: unit)))
    (hint : takeInt (rs ++ (' ' :: unit)) = some v) :
    matchInquiryAt (structLine addr nm cod rs unit) =
      some (String.mk addr, String.mk nm, v) := by
  cases addr with
  | nil => simp at haddr
  | cons a as =>
    cases cod with
    | nil => exact absurd rfl hcod
    | cons h hs =>
      have ha : isHexC a = true := by
        have h' := haddrhex
        simp only [List.all_cons, Bool.and_eq_true] at h'
        exact h'.1
      have hh : isHexC h = true := by
        have h' := hcodhex
        simp only [List.all_cons, Bool.and_eq_true] at h'
        exact h'.1
      simp only [structLine, matchInquiryAt]
      rw [if_pos (isPrefixOf_append_self inquiryChars _)]
      rw [List.drop_left' (by decide : inquiryChars.length = 7)]
      rw [dropWsPlus_space_append a as _ (not_ws_of_hex ha)]
      simp only [Option.some_bind]
      rw [takeHex12_exact _ _ haddr haddrhex]
      simp only [Option.some_bind]
      rw [dropWsPlus_space_cons '"' _ (by decide)]
      simp only [Option.some_bind]
      rw [takeQuoted_exact nm _ hnm hnmq]
      simp only [Option.some_bind]
      rw [dropWsPlus_space_append h hs _ (not_ws_of_hex hh)]
      simp only [Option.some_bind]
      rw [dropHexPlus_exact _ _ (by simp) hcodhex]
      simp only [Option.some_bind]
      rw [hrs]
      simp only [Option.some_bind]
      rw [hint]
      rfl

theorem searchInquiry_cons (c : Char) (t : List Char) :
    searchInquiry (c :: t) =
      match matchInquiryAt (c :: t) with
      | some r => some r
      | none => searchInquiry t := rfl

/-- `re.search` returns the position-0 match when one exists there. -/
theorem searchInquiry_of_match (l : List Char) (r : String × String × Int)
    (hne : l ≠ []) (hm : matchInquiryAt l = some r) : searchInquiry l = some r := by
  cases l with
  | nil => exact absurd rfl hne
  | cons c t => rw [searchInquiry_cons, hm]

/-! ### Claim C5: the structured scan parse -/

/-- C5 counterexample: the line `INQUIRY AABBCCDDEEFF "INQU_OK" 00 -1 dBm`
matches the spec's structured grammar (12-hex-digit address
`AABBCCDDEEFF`, free-text name `INQU_OK`, hex code `00`, signed integer
`-1`, unit `dBm`), yet the scan parser produces no device for it: the
candidacy filter at line 80 excludes every line containing `INQU_OK`, a
substring a free-text name can introduce.  So the claim fails as
universally stated over all grammar-conforming lines. -/
theorem scan_structured_grammar_cex :
    "INQUIRY AABBCCDDEEFF \"INQU_OK\" 00 -1 dBm" =
      String.mk (structLine "AABBCCDDEEFF".toList "INQU_OK".toList "00".toList
        "-1".toList "dBm".toList) ∧
    grammarOK "AABBCCDDEEFF".toList "INQU_OK".toList "00".toList "-1".toList
      "dBm".toList = true ∧
    parseScanLine "INQUIRY AABBCCDDEEFF \"INQU_OK\" 00 -1 dBm" = [] :=
  ⟨by decide, by decide, by decide⟩

/-- C5 (amended): for every scan-result line matching the structured
grammar `INQUIRY <12-hex addr> "<name>" <hex code> <signed int> <unit>`
whose text does not contain the parser's exclusion and normalization
tokens `INQU_OK`, `INQUIRY_`, `PENDINGINQUIRY`, the scan parser produces
exactly one device carrying that address, that name, and the signed
integer as signal strength. -/
theorem scan_structured_grammar_parse
    (addr nm cod ds unit : List Char) (neg : Bool)
    (haddr : addr.length = 12) (haddrhex : addr.all isHexC = true)
    (hnm : nm ≠ []) (hnmq : nm.all (fun c => !(c = '"' : Bool)) = true)
    (hcod : cod ≠ []) (hcodhex : cod.all isHexC = true)
    (hds : ds ≠ []) (hdsdig : ds.all isDigitC = true)
    (h1 : containsSub (String.mk (structLine addr nm cod
      ((if neg then ['-'] else []) ++ ds) unit)) "INQU_OK" = false)
    (h2 : containsSub (String.mk (structLine addr nm cod
      ((if neg then ['-'] else []) ++ ds) unit)) "INQUIRY_" = false)
    (h3 : containsSub (String.mk (structLine addr nm cod
      ((if neg then ['-'] else []) ++ ds) unit)) "PENDINGINQUIRY" = false) :
    parseScanLine (String.mk (structLine addr nm cod
        ((if neg then ['-'] else []) ++ ds) unit)) =
      [⟨String.mk addr, String.mk nm,
        some (if neg then -(digitsVal ds : Int) else (digitsVal ds : Int))⟩] := by
  have hno : listInfix pendingGlued
      (structLine addr nm cod ((if neg then ['-'] else []) ++ ds) unit) = false := by
    have h3' : listInfix "PENDINGINQUIRY".toList
        (structLine addr nm cod ((if neg then ['-'] else []) ++ ds) unit) = false := h3
    rwa [(by decide : "PENDINGINQUIRY".toList = pendingGlued)] at h3'
  have hnorm : normalizeLine (String.mk (structLine addr nm cod
      ((if neg then ['-'] else []) ++ ds) unit)) =
      String.mk (structLine addr nm cod ((if neg then ['-'] else []) ++ ds) unit) := by
    unfold normalizeLine
    rw [toList_mk, stripPendAll_no_occur _ hno]
  have hmatch := matchInquiryAt_structLine addr nm cod
    ((if neg then ['-'] else []) ++ ds) unit
    (if neg then -(digitsVal ds : Int) else (digitsVal ds : Int))
    haddr haddrhex hnm hnmq hcod hcodhex
    (signed_tok_not_ws neg ds unit hds hdsdig)
    (takeInt_exact ds unit neg hds hdsdig)
  have hsearch := searchInquiry_of_match _ _ (by simp [structLine, inquiryChars]) hmatch
  have hpre : (inquiryChars ++ [' ']).isPrefixOf
      (structLine addr nm cod ((if neg then ['-'] else []) ++ ds) unit) = true := by
    rw [show structLine addr nm cod ((if neg then ['-'] else []) ++ ds) unit =
        (inquiryChars ++ [' ']) ++ (addr ++ (' ' :: '"' ::
          (nm ++ ('"' :: ' ' :: (cod ++ (' ' ::
            (((if neg then ['-'] else []) ++ ds) ++ (' ' :: unit)))))))) from by
      simp [structLine, List.append_assoc]]
    exact isPrefixOf_append_self _ _
  have hinf : containsSub (String.mk (structLine addr nm cod
      ((if neg then ['-'] else []) ++ ds) unit)) "INQUIRY " = true := by
    show listInfix "INQUIRY ".toList
      (structLine addr nm cod ((if neg then ['-'] else []) ++ ds) unit) = true
    rw [(by decide : "INQUIRY ".toList = inquiryChars ++ [' '])]
    exact listInfix_of_isPrefixOf _ _ hpre
  unfold parseScanLine
  rw [hnorm]
  unfold parseCandidate
  rw [if_pos ⟨hinf, by simp [h1], by simp [h2]⟩, toList_mk, hsearch]

/-- Witness for C5 (amended): the spec's example line
`INQUIRY F84E1776FDB1 "LinkBuds S" 240404 -61 dBm` satisfies every
grammar constraint and parses to address `F84E1776FDB1`, name
`LinkBuds S`, and signal strength -61. -/
theorem scan_structured_grammar_parse_witness :
    (("F84E1776FDB1".toList).length = 12 ∧
      ("F84E1776FDB1".toList).all isHexC = true ∧
      "LinkBuds S".toList ≠ [] ∧
      ("LinkBuds S".toList).all (fun c => !(c = '"' : Bool)) = true ∧
      "240404".toList ≠ [] ∧
      ("240404".toList).all isHexC = true ∧
      "61".toList ≠ [] ∧
      ("61".toList).all isDigitC = true ∧
      containsSub (String.mk (structLine "F84E1776FDB1".toList "LinkBuds S".toList
        "240404".toList ((if true then ['-'] else []) ++ "61".toList)
        "dBm".toList)) "INQU_OK" = false ∧
      containsSub (String.mk (structLine "F84E1776FDB1".toList "LinkBuds S".toList
        "240404".toList ((if true then ['-'] else []) ++ "61".toList)
        "dBm".toList)) "INQUIRY_" = false ∧
      containsSub (String.mk (structLine "F84E1776FDB1".toList "LinkBuds S".toList
        "240404".toList ((if true then ['-'] else []) ++ "61".toList)
        "dBm".toList)) "PENDINGINQUIRY" = false) ∧
    parseScanLine "INQUIRY F84E1776FDB1 \"LinkBuds S\" 240404 -61 dBm" =
      [⟨"F84E1776FDB1", "LinkBuds S", some (-61)⟩] := by
  refine ⟨⟨by decide, by decide, by decide, by decide, by decide, by decide,
    by decide, by decide, by decide, by decide, by decide⟩, ?_⟩
  have h := scan_structured_grammar_parse "F84E1776FDB1".toList "LinkBuds S".toList
    "240404".toList "61".toList "dBm".toList true
    (by decide) (by decide) (by decide) (by decide) (by decide) (by decide)
    (by decide) (by decide) (by decide) (by decide) (by decide)
  rw [(by decide : "INQUIRY F84E1776FDB1 \"LinkBuds S\" 240404 -61 dBm" =
    String.mk (structLine "F84E1776FDB1".toList "LinkBuds S".toList "240404".toList
      ((if true then ['-'] else []) ++ "61".toList) "dBm".toList)), h]
  decide
